import Mathlib

/-!
Shallow embedding of `src/vault/resource_identity_group.go` from
Phylu/terraform-provider-vault: Terraform CRUD lifecycle handlers for a
Vault identity group, together with theorems checking the natural-language
specification against the code.

Modelling choices:
* `ResourceData` holds the locally tracked Terraform state: the resource id
  (`d.Id()` / `d.SetId`), the schema attributes `name`, `type`, the computed
  `id` attribute (written by `d.Set("id", ...)` in create), and the optional
  attributes.  An optional attribute that is unset, or set to its empty
  value, is `none`: this mirrors `d.GetOk`, which reports `ok = false` for
  unset and zero-valued attributes alike.
* Payload values (Go `interface\x7b\x7d` holding strings, string lists or
  string maps) are the inductive `Value`; a payload (`map[string]interface`
  in Go, both for request bodies and for `resp.Data`) is an association
  list `Payload`, looked up with `List.lookup`.
* The Vault API client (`client.Logical()`) is an oracle `Client` whose
  read/write/delete return either a `VaultError` or an optional payload
  (`none` models a nil `*api.Secret` response).
* Each handler returns its Go result (error and updated state) together
  with the list of remote calls it issued, in order, so that claims about
  the number and the targets of remote calls can be stated.
* `identityGroupCreate` returns `Option ...`: `none` models the runtime
  fault (nil dereference / failed type assertion) on the unguarded
  `resp.Data["id"].(string)`.
-/

/-- A value carried in a request or response payload: Go `interface\x7b\x7d`
restricted to the shapes this resource uses (string, list of string,
string-to-string map). -/
inductive Value where
  | str : String → Value
  | strList : List String → Value
  | strMap : List (String × String) → Value
deriving DecidableEq, Repr

/-- A request or response payload: Go `map[string]interface\x7b\x7d`,
modelled as an association list in insertion order. -/
abbrev Payload := List (String × Value)

/-- An error returned by the Vault API client.  The `expired` flag models
the classification queried by `isExpiredTokenErr`. -/
structure VaultError where
  msg : String
  expired : Bool
deriving DecidableEq, Repr

/-- Modelled from the spec: `isExpiredTokenErr` is defined elsewhere in the
repository (not among the provided source files).  The spec says a read
error with an "expired credential" classification is treated as benign, so
the classification is modelled as a boolean flag carried by the error. -/
def isExpiredTokenErr (e : VaultError) : Bool := e.expired

/-- The Vault API client (`client.Logical()`): an oracle giving the outcome
of each read, write and delete.  A `none` payload models a nil response. -/
structure Client where
  read : String → Except VaultError (Option Payload)
  write : String → Payload → Except VaultError (Option Payload)
  delete : String → Except VaultError (Option Payload)

/-- One remote call issued by a handler, with its target path (and body for
writes). -/
inductive RemoteCall where
  | read : String → RemoteCall
  | write : String → Payload → RemoteCall
  | delete : String → RemoteCall
deriving DecidableEq, Repr

/-- The locally tracked Terraform state of one identity group resource
(`*schema.ResourceData`).  `id` is the resource id (`d.Id()`); `attrId` is
the computed `id` attribute of the schema, set by `d.Set("id", ...)`. -/
structure ResourceData where
  id : String
  name : String
  type : String
  attrId : String
  metadata : Option (List (String × String))
  policies : Option (List String)
  member_entity_ids : Option (List String)
  member_group_ids : Option (List String)
deriving DecidableEq, Repr

/-- Go `fmt` verb `%q` on an identifier: the string wrapped in double
quotes (escaping of special characters inside the id is not modelled; the
ids used in the theorems below contain none). -/
def goQuote (s : String) : String := "\"" ++ s ++ "\""

/-- Constant `identityGroupPath`. -/
def identityGroupPath : String := "/identity/group"

/-- `identityGroupNamePath`: `fmt.Sprintf("%s/name/%s", identityGroupPath, name)`. -/
def identityGroupNamePath (name : String) : String :=
  identityGroupPath ++ "/name/" ++ name

/-- `identityGroupIDPath`: `fmt.Sprintf("%s/id/%s", identityGroupPath, id)`. -/
def identityGroupIDPath (id : String) : String :=
  identityGroupPath ++ "/id/" ++ id

/-- Coerce a payload value to a string attribute, as `d.Set` on a
string-typed schema field: a missing or non-string value yields the zero
value `""`. -/
def getStr : Option Value → String
  | some (Value.str s) => s
  | _ => ""

/-- Coerce a payload value to an optional list attribute: a missing or
non-list value yields the zero value (empty), which `d.GetOk` reports as
unset, hence `none`. -/
def getStrList : Option Value → Option (List String)
  | some (Value.strList l) => some l
  | _ => none

/-- Coerce a payload value to an optional map attribute (same zero-value
convention as `getStrList`). -/
def getStrMap : Option Value → Option (List (String × String))
  | some (Value.strMap m) => some m
  | _ => none

/-- `d.Set(k, v)` for the schema fields of this resource. -/
def identityGroupSet (d : ResourceData) (k : String) (v : Option Value) :
    ResourceData :=
  match k with
  | "name" => { d with name := getStr v }
  | "type" => { d with type := getStr v }
  | "metadata" => { d with metadata := getStrMap v }
  | "policies" => { d with policies := getStrList v }
  | "member_entity_ids" => { d with member_entity_ids := getStrList v }
  | "member_group_ids" => { d with member_group_ids := getStrList v }
  | "id" => { d with attrId := getStr v }
  | _ => d

/-- `identityGroupUpdateFields`: adds to the request body each optional
field for which `d.GetOk` reports a value, in source order (policies,
member_entity_ids, member_group_ids, metadata). -/
def identityGroupUpdateFields (d : ResourceData) : Payload :=
  (match d.policies with
   | some v => [("policies", Value.strList v)]
   | none => []) ++
  (match d.member_entity_ids with
   | some v => [("member_entity_ids", Value.strList v)]
   | none => []) ++
  (match d.member_group_ids with
   | some v => [("member_group_ids", Value.strList v)]
   | none => []) ++
  (match d.metadata with
   | some v => [("metadata", Value.strMap v)]
   | none => [])

/-- The request body built by `identityGroupCreate`: `name` and `type`,
then the optional fields added by `identityGroupUpdateFields`. -/
def identityGroupCreateData (d : ResourceData) : Payload :=
  [("name", Value.str d.name), ("type", Value.str d.type)] ++
    identityGroupUpdateFields d

/-- The keys of a payload, in order. -/
def payloadKeys (p : Payload) : List String := p.map Prod.fst

/-- `identityGroupRead`: reads the id-addressed path.  An expired-token
error is benign (no error, no state change); any other error is returned
wrapped; a nil response clears the resource id (`d.SetId("")`); otherwise
the five listed schema fields are set from the response payload. -/
def identityGroupRead (d : ResourceData) (c : Client) :
    (Except String Unit × ResourceData) × List RemoteCall :=
  let path := identityGroupIDPath d.id
  match c.read path with
  | .error e =>
      if isExpiredTokenErr e then
        ((.ok (), d), [RemoteCall.read path])
      else
        ((.error ("error reading AppRole auth backend role SecretID " ++
            goQuote d.id ++ ": " ++ e.msg), d), [RemoteCall.read path])
  | .ok none => ((.ok (), { d with id := "" }), [RemoteCall.read path])
  | .ok (some p) =>
      ((.ok (),
        ["name", "type", "metadata", "member_entity_ids",
          "member_group_ids"].foldl
          (fun d k => identityGroupSet d k (p.lookup k)) d),
        [RemoteCall.read path])

/-- `identityGroupCreate`: writes `identityGroupCreateData` to the
collection path, then sets the `id` attribute and the resource id from the
response and performs a trailing read.  `none` models the runtime fault of
the unguarded `resp.Data["id"].(string)` when the write succeeded but the
response is nil, lacks an `id`, or carries a non-string `id`. -/
def identityGroupCreate (d : ResourceData) (c : Client) :
    Option ((Except String Unit × ResourceData) × List RemoteCall) :=
  let data := identityGroupCreateData d
  match c.write identityGroupPath data with
  | .error e =>
      some ((.error ("error writing IdentityGroup to " ++ goQuote d.name ++
          ": " ++ e.msg), d), [RemoteCall.write identityGroupPath data])
  | .ok none => none
  | .ok (some p) =>
      match p.lookup "id" with
      | some (Value.str newId) =>
          let d1 := identityGroupSet d "id" (p.lookup "id")
          let r := identityGroupRead { d1 with id := newId } c
          some (r.1, RemoteCall.write identityGroupPath data :: r.2)
      | _ => none

/-- `identityGroupUpdate`: writes `identityGroupUpdateFields` to the
id-addressed path, then performs a trailing read. -/
def identityGroupUpdate (d : ResourceData) (c : Client) :
    (Except String Unit × ResourceData) × List RemoteCall :=
  let path := identityGroupIDPath d.id
  let data := identityGroupUpdateFields d
  match c.write path data with
  | .error e =>
      ((.error ("error updating IdentityGroup " ++ goQuote d.id ++ ": " ++
          e.msg), d), [RemoteCall.write path data])
  | .ok _ =>
      let r := identityGroupRead d c
      (r.1, RemoteCall.write path data :: r.2)

/-- `identityGroupDelete`: deletes the id-addressed path.  Note the source
error message `fmt.Errorf("error IdentityGroup %q", id)` drops the
underlying error. -/
def identityGroupDelete (d : ResourceData) (c : Client) :
    (Except String Unit × ResourceData) × List RemoteCall :=
  let path := identityGroupIDPath d.id
  match c.delete path with
  | .error _ =>
      ((.error ("error IdentityGroup " ++ goQuote d.id), d),
        [RemoteCall.delete path])
  | .ok _ => ((.ok (), d), [RemoteCall.delete path])

/-- `identityGroupExists`: probes the id-addressed path, or the
name-addressed path when no id is set; returns whether the response is
non-nil, and surfaces any read error alongside `true`. -/
def identityGroupExists (d : ResourceData) (c : Client) :
    (Bool × Except String Unit) × List RemoteCall :=
  let id := d.id
  let path := identityGroupIDPath id
  let key := id
  let kp := if id.length = 0 then (d.name, identityGroupNamePath d.name)
            else (key, path)
  match c.read kp.2 with
  | .error e =>
      ((true, .error ("error checking if IdentityGroup " ++ goQuote kp.1 ++
          " exists: " ++ e.msg)), [RemoteCall.read kp.2])
  | .ok resp => ((resp.isSome, .ok ()), [RemoteCall.read kp.2])

/-! ### Concrete fixtures used by witnesses and counterexamples -/

/-- A concrete local state: id "abc", name "g1", with `policies` and
`metadata` set locally. -/
def st0 : ResourceData :=
  { id := "abc", name := "g1", type := "internal", attrId := ""
    metadata := some [("env", "prod")], policies := some ["p1"]
    member_entity_ids := none, member_group_ids := none }

/-- The state `st0` before an id has been assigned. -/
def stEmpty : ResourceData := { st0 with id := "" }

/-- A concrete response payload: the five refreshed keys minus `metadata`,
as a Vault read response would carry them. -/
def respOk : Payload :=
  [("name", Value.str "g1"), ("type", Value.str "internal"),
   ("member_entity_ids", Value.strList []),
   ("member_group_ids", Value.strList [])]

/-- A concrete non-expired transport error. -/
def errPerm : VaultError := { msg := "permission denied", expired := false }

/-- A concrete error carrying the expired-credential classification. -/
def errExpired : VaultError := { msg := "secret id expired", expired := true }

/-- A client whose reads succeed with a nil response. -/
def clientNil : Client :=
  { read := fun _ => .ok none, write := fun _ _ => .ok none
    delete := fun _ => .ok none }

/-- A client whose reads fail with an expired-credential error. -/
def clientExpired : Client :=
  { read := fun _ => .error errExpired, write := fun _ _ => .ok none
    delete := fun _ => .ok none }

/-- A client on which every call succeeds: reads return `respOk`, writes
return a payload assigning id "abc". -/
def clientOk : Client :=
  { read := fun _ => .ok (some respOk)
    write := fun _ _ => .ok (some [("id", Value.str "abc")])
    delete := fun _ => .ok (some []) }

/-- A client on which every call fails with `errPerm`. -/
def clientErr : Client :=
  { read := fun _ => .error errPerm, write := fun _ _ => .error errPerm
    delete := fun _ => .error errPerm }

/-- A client whose writes succeed but whose response payload lacks an
`id` key. -/
def clientNoId : Client :=
  { read := fun _ => .ok (some respOk), write := fun _ _ => .ok (some [])
    delete := fun _ => .ok none }

/-! ### Helper lemmas -/

/-- A string has length zero exactly when it is empty. -/
theorem string_length_eq_zero (s : String) : s.length = 0 ↔ s = "" := by
  cases s with
  | mk data => cases data <;> simp [String.length, String.ext_iff]

/-- A name-addressed path never coincides with an id-addressed path: the
two differ at character 16 (`n` versus `i`). -/
theorem identityGroupNamePath_ne_idPath (n i : String) :
    identityGroupNamePath n ≠ identityGroupIDPath i := by
  intro h
  have e1 : identityGroupNamePath n = "/identity/group/name/" ++ n := by
    simp only [identityGroupNamePath, identityGroupPath]
    rw [show ("/identity/group" ++ "/name/" : String) = "/identity/group/name/" from by decide]
  have e2 : identityGroupIDPath i = "/identity/group/id/" ++ i := by
    simp only [identityGroupIDPath, identityGroupPath]
    rw [show ("/identity/group" ++ "/id/" : String) = "/identity/group/id/" from by decide]
  rw [e1, e2] at h
  have h2 := congrArg (fun s => s.data.take 19) h
  simp only [String.data_append] at h2
  rw [List.take_append_of_le_length (by decide),
    List.take_append_of_le_length (by decide)] at h2
  exact absurd h2 (by decide)

/-- `identityGroupRead` always issues exactly one remote call: the read of
the id-addressed path. -/
theorem identityGroupRead_trace (d : ResourceData) (c : Client) :
    (identityGroupRead d c).2 = [RemoteCall.read (identityGroupIDPath d.id)] := by
  rcases h : c.read (identityGroupIDPath d.id) with e | resp
  · simp only [identityGroupRead, h]
    cases isExpiredTokenErr e <;> simp
  · cases resp <;> simp [identityGroupRead, h]

/-! ### Claim theorems -/

/-- C1: if the remote read succeeds but carries no payload (nil response),
`identityGroupRead` clears the locally tracked id (sets it to the empty
string) and returns success; every other tracked field is unchanged. -/
theorem identityGroupRead_nil_clears_id (d : ResourceData) (c : Client)
    (h : c.read (identityGroupIDPath d.id) = .ok none) :
    (identityGroupRead d c).1 = (.ok (), { d with id := "" }) := by
  simp [identityGroupRead, h]

/-- Witness for C1 at the concrete state `st0` and the nil-responding
client. -/
theorem identityGroupRead_nil_clears_id_witness :
    (identityGroupRead st0 clientNil).1 = (.ok (), { st0 with id := "" }) :=
  identityGroupRead_nil_clears_id st0 clientNil rfl

/-- C3: if the remote read fails with an error classified as expired
credential, `identityGroupRead` returns no error and leaves the local state
exactly as it was. -/
theorem identityGroupRead_expired_noop (d : ResourceData) (c : Client)
    (e : VaultError) (h : c.read (identityGroupIDPath d.id) = .error e)
    (hexp : isExpiredTokenErr e = true) :
    (identityGroupRead d c).1 = (.ok (), d) := by
  simp [identityGroupRead, h, hexp]

/-- Witness for C3 at the concrete state `st0` and the expired-credential
client. -/
theorem identityGroupRead_expired_noop_witness :
    (identityGroupRead st0 clientExpired).1 = (.ok (), st0) :=
  identityGroupRead_expired_noop st0 clientExpired errExpired rfl rfl

/-- C7: `identityGroupRead` never changes the locally tracked `policies`
attribute (nor the computed `id` attribute): on every branch they keep
their prior local values. -/
theorem identityGroupRead_preserves_policies (d : ResourceData) (c : Client) :
    ((identityGroupRead d c).1.2).policies = d.policies ∧
    ((identityGroupRead d c).1.2).attrId = d.attrId := by
  rcases h : c.read (identityGroupIDPath d.id) with e | resp
  · simp only [identityGroupRead, h]
    cases isExpiredTokenErr e <;> simp
  · cases resp <;> simp [identityGroupRead, h, identityGroupSet]

/-- C10: on a non-nil response, `identityGroupRead` overwrites all five
refreshed attributes with the corresponding response values; a key absent
from the response clears the local attribute to its zero value (empty
string for `name`/`type`, unset for the optional attributes). -/
theorem identityGroupRead_refreshes_from_response (d : ResourceData)
    (c : Client) (p : Payload)
    (h : c.read (identityGroupIDPath d.id) = .ok (some p)) :
    (identityGroupRead d c).1 = (.ok (),
      { d with name := getStr (p.lookup "name")
               type := getStr (p.lookup "type")
               metadata := getStrMap (p.lookup "metadata")
               member_entity_ids := getStrList (p.lookup "member_entity_ids")
               member_group_ids := getStrList (p.lookup "member_group_ids") }) := by
  simp only [identityGroupRead, h]
  rfl

/-- Witness for C10 at the concrete state `st0` (whose `metadata` is set
locally) and the client responding with `respOk` (which has no `metadata`
key, so the local `metadata` is cleared). -/
theorem identityGroupRead_refreshes_from_response_witness :
    (identityGroupRead st0 clientOk).1 = (.ok (),
      { st0 with name := getStr (respOk.lookup "name")
                 type := getStr (respOk.lookup "type")
                 metadata := getStrMap (respOk.lookup "metadata")
                 member_entity_ids := getStrList (respOk.lookup "member_entity_ids")
                 member_group_ids := getStrList (respOk.lookup "member_group_ids") }) :=
  identityGroupRead_refreshes_from_response st0 clientOk respOk rfl

/-- C2: the create payload carries exactly `name`, `type`, and each
optional field if and only if it is set locally (an unset field's key is
omitted entirely); the update payload carries exactly the optional fields
that are set and never `name` or `type`. -/
theorem identityGroup_payload_fields (d : ResourceData) :
    payloadKeys (identityGroupCreateData d) =
      "name" :: "type" :: payloadKeys (identityGroupUpdateFields d) ∧
    (∀ k, k ∈ payloadKeys (identityGroupUpdateFields d) →
      k ∈ ["policies", "member_entity_ids", "member_group_ids", "metadata"]) ∧
    ("policies" ∈ payloadKeys (identityGroupUpdateFields d) ↔
      d.policies.isSome) ∧
    ("member_entity_ids" ∈ payloadKeys (identityGroupUpdateFields d) ↔
      d.member_entity_ids.isSome) ∧
    ("member_group_ids" ∈ payloadKeys (identityGroupUpdateFields d) ↔
      d.member_group_ids.isSome) ∧
    ("metadata" ∈ payloadKeys (identityGroupUpdateFields d) ↔
      d.metadata.isSome) ∧
    "name" ∉ payloadKeys (identityGroupUpdateFields d) ∧
    "type" ∉ payloadKeys (identityGroupUpdateFields d) := by
  rcases hp : d.policies <;> rcases he : d.member_entity_ids <;>
    rcases hg : d.member_group_ids <;> rcases hm : d.metadata <;>
    simp [identityGroupCreateData, identityGroupUpdateFields, payloadKeys,
      hp, he, hg, hm]

/-- Witness for C2 at the concrete state `st0`: its set `policies` and
`metadata` appear in the update payload, its unset `member_entity_ids`
does not, and `name` is absent from the update payload. -/
theorem identityGroup_payload_fields_witness :
    payloadKeys (identityGroupCreateData st0) =
      "name" :: "type" :: payloadKeys (identityGroupUpdateFields st0) ∧
    "policies" ∈ payloadKeys (identityGroupUpdateFields st0) ∧
    "metadata" ∈ payloadKeys (identityGroupUpdateFields st0) ∧
    "member_entity_ids" ∉ payloadKeys (identityGroupUpdateFields st0) ∧
    "name" ∉ payloadKeys (identityGroupUpdateFields st0) :=
  ⟨(identityGroup_payload_fields st0).1,
   ((identityGroup_payload_fields st0).2.2.1).mpr rfl,
   ((identityGroup_payload_fields st0).2.2.2.2.2.1).mpr rfl,
   fun hmem =>
     absurd (((identityGroup_payload_fields st0).2.2.2.1).mp hmem) (by decide),
   (identityGroup_payload_fields st0).2.2.2.2.2.2.1⟩

/-- C4: `identityGroupExists` probes the id-addressed path when an id is
tracked; with an empty id it probes the name-addressed path built from the
`name` attribute and issues no call to any id-addressed path. -/
theorem identityGroupExists_path (d : ResourceData) (c : Client) :
    (d.id ≠ "" →
      (identityGroupExists d c).2 =
        [RemoteCall.read (identityGroupIDPath d.id)]) ∧
    (d.id = "" →
      (identityGroupExists d c).2 =
        [RemoteCall.read (identityGroupNamePath d.name)] ∧
      ∀ i, RemoteCall.read (identityGroupIDPath i) ∉
        (identityGroupExists d c).2) := by
  constructor
  · intro hne
    have hlen : ¬ d.id.length = 0 := fun h =>
      hne ((string_length_eq_zero d.id).mp h)
    rcases h : c.read (identityGroupIDPath d.id) with e | resp <;>
      simp [identityGroupExists, hlen, h]
  · intro heq
    have hlen : d.id.length = 0 := (string_length_eq_zero d.id).mpr heq
    have htrace : (identityGroupExists d c).2 =
        [RemoteCall.read (identityGroupNamePath d.name)] := by
      rcases h : c.read (identityGroupNamePath d.name) with e | resp <;>
        simp [identityGroupExists, hlen, h]
    refine ⟨htrace, fun i hmem => ?_⟩
    rw [htrace] at hmem
    have : identityGroupIDPath i = identityGroupNamePath d.name := by
      simpa using hmem
    exact identityGroupNamePath_ne_idPath d.name i this.symm

/-- Witness for C4: with the tracked id "abc" the probe reads the
id-addressed path; with an empty id it reads the name-addressed path. -/
theorem identityGroupExists_path_witness :
    (identityGroupExists st0 clientOk).2 =
      [RemoteCall.read (identityGroupIDPath st0.id)] ∧
    (identityGroupExists stEmpty clientOk).2 =
      [RemoteCall.read (identityGroupNamePath stEmpty.name)] :=
  ⟨(identityGroupExists_path st0 clientOk).1 (by decide),
   ((identityGroupExists_path stEmpty clientOk).2 rfl).1⟩

/-- C5: when the probe read succeeds, `identityGroupExists` returns true
exactly when the payload is non-nil (and no error); when the read fails,
it returns the wrapped read error alongside the boolean true. -/
theorem identityGroupExists_result (d : ResourceData) (c : Client) :
    (∀ resp, c.read (if d.id.length = 0 then identityGroupNamePath d.name
        else identityGroupIDPath d.id) = .ok resp →
      (identityGroupExists d c).1 = (resp.isSome, .ok ())) ∧
    (∀ e, c.read (if d.id.length = 0 then identityGroupNamePath d.name
        else identityGroupIDPath d.id) = .error e →
      (identityGroupExists d c).1 = (true,
        .error ("error checking if IdentityGroup " ++
          goQuote (if d.id.length = 0 then d.name else d.id) ++
          " exists: " ++ e.msg))) := by
  by_cases hlen : d.id.length = 0 <;>
    exact ⟨fun resp h => by simp [hlen] at h; simp [identityGroupExists, hlen, h],
           fun e h => by simp [hlen] at h; simp [identityGroupExists, hlen, h]⟩

/-- Witness for C5: on a successful read of `respOk` the probe reports
existence with no error; on a failing read it reports true together with
the wrapped error. -/
theorem identityGroupExists_result_witness :
    (identityGroupExists st0 clientOk).1 =
      ((some respOk : Option Payload).isSome, .ok ()) ∧
    (identityGroupExists st0 clientErr).1 = (true,
      .error ("error checking if IdentityGroup " ++ goQuote st0.id ++
        " exists: " ++ errPerm.msg)) :=
  ⟨(identityGroupExists_result st0 clientOk).1 (some respOk) rfl,
   (identityGroupExists_result st0 clientErr).2 errPerm rfl⟩

/-- C6 counterexample: with a client whose write succeeds, an update issues
two remote calls (its write plus the trailing read), not exactly one. -/
theorem identityGroupUpdate_two_calls :
    (identityGroupUpdate st0 clientOk).2.length = 2 ∧
    (identityGroupUpdate st0 clientOk).2.length ≠ 1 := by decide

/-- C6 amended: delete issues exactly one remote call; update issues at
most two (its write, plus a trailing read when the write succeeds); create
issues at most two (its write, plus a trailing read) whenever it returns. -/
theorem identityGroup_remote_call_counts (d : ResourceData) (c : Client) :
    (identityGroupDelete d c).2.length = 1 ∧
    (identityGroupUpdate d c).2.length ≤ 2 ∧
    (∀ r, identityGroupCreate d c = some r → r.2.length ≤ 2) := by
  refine ⟨?_, ?_, ?_⟩
  · rcases h : c.delete (identityGroupIDPath d.id) with e | o <;>
      simp [identityGroupDelete, h]
  · rcases h : c.write (identityGroupIDPath d.id)
        (identityGroupUpdateFields d) with e | o <;>
      simp [identityGroupUpdate, h, identityGroupRead_trace]
  · intro r hr
    rcases h : c.write identityGroupPath (identityGroupCreateData d) with e | o
    · simp [identityGroupCreate, h] at hr
      simp [← hr]
    · rcases o with _ | p
      · simp [identityGroupCreate, h] at hr
      · rcases hl : p.lookup "id" with _ | v
        · simp [identityGroupCreate, h, hl] at hr
        · cases v with
          | str s =>
              simp [identityGroupCreate, h, hl] at hr
              simp [← hr, identityGroupRead_trace]
          | strList l => simp [identityGroupCreate, h, hl] at hr
          | strMap m => simp [identityGroupCreate, h, hl] at hr

/-- Witness for C6 amended: concrete call counts on the all-succeeding
client. -/
theorem identityGroup_remote_call_counts_witness :
    (identityGroupDelete st0 clientOk).2.length = 1 ∧
    ((identityGroupCreate st0 clientOk).getD
      ((.ok (), st0), [])).2.length ≤ 2 :=
  ⟨(identityGroup_remote_call_counts st0 clientOk).1,
   (identityGroup_remote_call_counts st0 clientOk).2.2 _ rfl⟩

/-- C8: create returns the wrapped write error when the remote write
fails, and the unguarded id extraction faults on a successful write whose
response lacks an `id` (the `none` / runtime-fault branch is reachable). -/
theorem identityGroupCreate_write_error_and_unguarded_id (d : ResourceData)
    (c : Client) (e : VaultError)
    (h : c.write identityGroupPath (identityGroupCreateData d) = .error e) :
    identityGroupCreate d c =
      some ((.error ("error writing IdentityGroup to " ++ goQuote d.name ++
          ": " ++ e.msg), d),
        [RemoteCall.write identityGroupPath (identityGroupCreateData d)]) ∧
    identityGroupCreate st0 clientNoId = none := by
  exact ⟨by simp [identityGroupCreate, h], rfl⟩

/-- Witness for C8 at the concrete state `st0`: the failing-writes client
yields the wrapped error, and the id-less-response client faults. -/
theorem identityGroupCreate_write_error_witness :
    identityGroupCreate st0 clientErr =
      some ((.error ("error writing IdentityGroup to " ++ goQuote st0.name ++
          ": " ++ errPerm.msg), st0),
        [RemoteCall.write identityGroupPath (identityGroupCreateData st0)]) ∧
    identityGroupCreate st0 clientNoId = none :=
  identityGroupCreate_write_error_and_unguarded_id st0 clientErr errPerm rfl

/-- C9: at the failing input (tracked id "abc", remote delete failing with
"permission denied") delete returns the error message
"error IdentityGroup \"abc\"", which names the id but does not contain the
underlying error anywhere (the source drops `err` from the format string);
when the remote delete succeeds, delete returns no error. -/
theorem identityGroupDelete_error_drops_cause :
    (identityGroupDelete st0 clientErr).1 =
      (.error ("error IdentityGroup " ++ goQuote st0.id), st0) ∧
    ¬ (errPerm.msg.data <:+:
        ("error IdentityGroup " ++ goQuote st0.id).data) ∧
    (identityGroupDelete st0 clientOk).1 = (.ok (), st0) := by
  exact ⟨rfl, by decide, rfl⟩
